import Mathlib

/-!
Verification development for the SLVNK matchmaking backend. The definitions
below are a shallow embedding of the access-control middleware, the upload
admission pipeline and the profile query layer of the repository (server.js,
routes/authRoutes.js, routes/profileRoutes.js, routes/adminRoutes.js,
middleware/authMiddleware.js, middleware/staticAdminMiddleware.js,
middleware/upload.js, models/User.js). The document store is modelled as a
list of user documents; MongoDB cursor semantics (filter, sort, skip, limit,
projection) are made explicit; JavaScript string operations are modelled over
character lists so that everything reduces in the kernel.
-/

/-- Character-list lowering, modelling the case-insensitive regular-expression
flag and JavaScript toLowerCase on the small ASCII strings the code compares. -/
def lowerChars (cs : List Char) : List Char := cs.map Char.toLower

/-- Lowering lifted back to strings (used where the code calls toLowerCase
before storing or comparing, for example email normalisation). -/
def jsToLower (s : String) : String := String.mk (lowerChars s.toList)

/-- Splitting on the space character, modelling the JavaScript
String.prototype.split with separator a single space: an empty input yields
one empty piece, adjacent separators yield empty pieces. The accumulator
holds the current piece reversed. -/
def splitOnSpaceAux (current : List Char) : List Char → List (List Char)
  | [] => [current.reverse]
  | c :: rest =>
    if c = ' ' then current.reverse :: splitOnSpaceAux [] rest
    else splitOnSpaceAux (c :: current) rest

/-- The list of pieces of a string split on single spaces, as strings. -/
def jsSplitSpace (s : String) : List String :=
  (splitOnSpaceAux [] s.toList).map String.mk

/-- Does one character list occur inside another? Models an unanchored
regular-expression match of a plain-text pattern. -/
def charsContain (pat : List Char) : List Char → Bool
  | [] => pat.isEmpty
  | c :: rest => pat.isPrefixOf (c :: rest) || charsContain pat rest

/-- Case-insensitive substring test, modelling a test of the regular
expression new RegExp(pat, "i") built from plain text against hay. -/
def ciContains (hay pat : String) : Bool :=
  charsContain (lowerChars pat.toList) (lowerChars hay.toList)

/-- The two request headers the middleware reads. Header-name lookup in
Express and Node is case-insensitive, so a single field per header models
both req.header("X-Admin-Request") and req.headers["x-admin-request"];
the field holds the header value, none when the header is absent. -/
structure Request where
  xAdminRequest : Option String
  authorization : Option String
deriving DecidableEq

/-- The decoded JWT payload the code signs at login and registration:
jwt.sign({ userId, role }, secret). -/
structure TokenPayload where
  userId : String
  role : String
deriving DecidableEq

/-- The two failure causes of jwt.verify the spec distinguishes internally:
a signature that does not check out, and a token past its expiry. Both are
thrown errors in the code; the type records the cause so indistinguishability
of the two rejections can be stated. -/
inductive VerifyError where
  | badSignature
  | expired
deriving DecidableEq

/-- Outcome of the access-gate middleware: granted carries what the code
attaches as req.user (none when nothing is attached), rejected carries the
HTTP status and JSON message the code sends. -/
inductive GateOutcome where
  | granted (user : Option TokenPayload)
  | rejected (status : Nat) (message : String)
deriving DecidableEq

/-- Token extraction from middleware/authMiddleware.js line 16:
req.header("Authorization") optional-chained into split(" ")[1]. An absent
header, a missing second piece, or an empty second piece (all falsy in
JavaScript) leave no token. -/
def extractToken (authorization : Option String) : Option String :=
  match authorization with
  | none => none
  | some h =>
    match (jsSplitSpace h)[1]? with
    | none => none
    | some t => if t = "" then none else some t

/-- The Access Gate, middleware/authMiddleware.js. The verify parameter
models jwt.verify(token, secret): the code never inspects which error was
thrown. On the admin-header path the code calls next() without touching
req.user, so the granted outcome carries none. -/
def authMiddleware (verify : String → Except VerifyError TokenPayload)
    (req : Request) : GateOutcome :=
  if req.xAdminRequest = some "true" then
    GateOutcome.granted none
  else
    match extractToken req.authorization with
    | none => GateOutcome.rejected 401 "No token or admin header, authorization denied"
    | some token =>
      match verify token with
      | Except.ok decoded => GateOutcome.granted (some decoded)
      | Except.error _ => GateOutcome.rejected 401 "Token is not valid"

/-- Outcome of the header-only admin gate. -/
inductive AdminGateOutcome where
  | granted
  | rejected (status : Nat) (message : String)
deriving DecidableEq

/-- The header-only gate on admin routes, middleware/staticAdminMiddleware.js:
it reads req.headers["x-admin-request"], compares it to "true", and never
consumes a verifier or the Authorization header. -/
def staticAdminMiddleware (req : Request) : AdminGateOutcome :=
  if req.xAdminRequest = some "true" then
    AdminGateOutcome.granted
  else
    AdminGateOutcome.rejected 403 "Admin privileges required"

/-- Metadata multer hands to a fileFilter callback: the form field name, the
original client-side filename, and the client-declared MIME type. -/
structure FileMeta where
  fieldname : String
  originalname : String
  mimetype : String
deriving DecidableEq

/-- A fileFilter callback either accepts the file (cb(null, true)) or
rejects it with an error message (cb(new Error(message), false)). -/
inductive FilterDecision where
  | accept
  | reject (message : String)
deriving DecidableEq

/-- The extension allow-list of the regular expression
in middleware/upload.js line 25: \.(jpg|jpeg|png|gif)$ with the i flag. -/
def imageExtensionAllowList : List String := ["jpg", "jpeg", "png", "gif"]

/-- Does the filename end in a dot followed by one of the allowed image
extensions, compared case-insensitively? Models
file.originalname.match(the regular expression above). -/
def extMatches (name : String) : Bool :=
  imageExtensionAllowList.any fun e =>
    List.isSuffixOf ('.' :: e.toList) (lowerChars name.toList)

/-- Does the declared MIME type start with image/ ? Models
file.mimetype.startsWith("image/") in routes/authRoutes.js. -/
def mimetypeIsImage (m : String) : Bool :=
  List.isPrefixOf "image/".toList m.toList

/-- The fileFilter of middleware/upload.js (profile-routes upload pipeline):
extension allow-list on the original filename, case-insensitive. -/
def Upload.fileFilter (file : FileMeta) : FilterDecision :=
  if extMatches file.originalname then FilterDecision.accept
  else FilterDecision.reject "Only image files are allowed!"

/-- The fileFilter of routes/authRoutes.js (registration upload pipeline):
it accepts exactly when the declared MIME type starts with image/. -/
def AuthRoutes.fileFilter (file : FileMeta) : FilterDecision :=
  if mimetypeIsImage file.mimetype then FilterDecision.accept
  else FilterDecision.reject "Not an image! Please upload only images."

/-- Multer runs the fileFilter before touching storage: an accepted file is
handed to the storage engine (and ends up written under its generated name),
a rejected one is skipped entirely, so nothing is written for it. -/
def runFileFilter (filter : FileMeta → FilterDecision) (file : FileMeta) :
    Option FileMeta :=
  match filter file with
  | FilterDecision.accept => some file
  | FilterDecision.reject _ => none

/-- A stored user document, as the filtered scans of the code see it: the
unique key, the unique account fields, the stored password hash, the
demographic fields the search route filters on (optional, since a document
may lack them), and the createdAt timestamp (milliseconds) that timestamps
every document and orders every listing. -/
structure UserDoc where
  _id : String
  email : String
  mobileNumber : String
  password : String
  gender : Option String
  age : Option Int
  location : Option String
  religion : Option String
  createdAt : Nat
deriving DecidableEq

/-- A user document as serialised into a response payload: identical to the
stored document except that the password hash is optional, reflecting that a
projection may or may not have kept it. -/
structure UserView where
  _id : String
  email : String
  mobileNumber : String
  password : Option String
  gender : Option String
  age : Option Int
  location : Option String
  religion : Option String
  createdAt : Nat
deriving DecidableEq

/-- Projection dropping the password hash. This models both the explicit
query projection .select("-password") and the schema-level default of
models/User.js (password has select: false), which excludes the hash from
any query that does not opt back in with "+password". -/
def projectWithoutPassword (d : UserDoc) : UserView :=
  { _id := d._id, email := d.email, mobileNumber := d.mobileNumber,
    password := none, gender := d.gender, age := d.age,
    location := d.location, religion := d.religion, createdAt := d.createdAt }

/-- Models delete userObject.password on a plain object before responding
(routes/adminRoutes.js GET /users/:id). -/
def deletePassword (v : UserView) : UserView := { v with password := none }

/-- Insertion step of the newest-first sort: a document is placed before the
first element it is at least as new as. -/
def insertByCreatedAtDesc (d : UserDoc) : List UserDoc → List UserDoc
  | [] => [d]
  | e :: rest =>
    if e.createdAt ≤ d.createdAt then d :: e :: rest
    else e :: insertByCreatedAtDesc d rest

/-- The cursor modifier .sort({ createdAt: -1 }): newest first. -/
def sortByCreatedAtDesc : List UserDoc → List UserDoc
  | [] => []
  | d :: rest => insertByCreatedAtDesc d (sortByCreatedAtDesc rest)

/-- Math.ceil(a / b) on JavaScript numbers, for a whole a and a positive
whole b, as used for the reported totalPages. -/
def jsCeil (a b : Nat) : Nat := (a + b - 1) / b

/-- The caller-supplied search parameters of GET /search in
routes/profileRoutes.js. A field holds none when the query parameter is
absent or empty (falsy in JavaScript, so the handler adds no condition for
it); page and limit carry their destructuring defaults 1 and 10 already
applied and parsed. -/
structure SearchQuery where
  gender : Option String
  minAge : Option Int
  maxAge : Option Int
  location : Option String
  religion : Option String
  page : Nat
  limit : Nat
deriving DecidableEq

/-- The filter object the search handler builds: the base condition
excluding the logged-in user by key, an exact gender match, case-insensitive
substring matches on location and religion, and inclusive numeric bounds on
age. A condition on a field a document lacks does not match, as in MongoDB. -/
def matchesSearch (callerId : String) (q : SearchQuery) (d : UserDoc) : Bool :=
  (!(d._id == callerId))
  && (match q.gender with
      | none => true
      | some g => d.gender == some g)
  && (match q.location with
      | none => true
      | some pat =>
        match d.location with
        | none => false
        | some loc => ciContains loc pat)
  && (match q.religion with
      | none => true
      | some pat =>
        match d.religion with
        | none => false
        | some rel => ciContains rel pat)
  && (match q.minAge with
      | none => true
      | some m =>
        match d.age with
        | none => false
        | some a => m ≤ a)
  && (match q.maxAge with
      | none => true
      | some m =>
        match d.age with
        | none => false
        | some a => a ≤ m)

/-- The JSON body GET /search responds with. -/
structure SearchResponse where
  results : List UserView
  total : Nat
  page : Nat
  limit : Nat
  totalPages : Nat
deriving DecidableEq

/-- The GET /search handler of routes/profileRoutes.js, given the decoded
caller identifier (req.user.userId): filter, newest-first sort, skip
(page - 1) * limit, take limit, project away the password; the count is
taken with the same filter and no pagination, totalPages is
Math.ceil(count / limit). -/
def searchHandler (callerId : String) (q : SearchQuery) (store : List UserDoc) :
    SearchResponse :=
  let matching := store.filter (matchesSearch callerId q)
  let sorted := sortByCreatedAtDesc matching
  let skip := (q.page - 1) * q.limit
  { results := ((sorted.drop skip).take q.limit).map projectWithoutPassword
    total := matching.length
    page := q.page
    limit := q.limit
    totalPages := jsCeil matching.length q.limit }

/-- The JSON body of the public listing GET / in routes/profileRoutes.js. -/
structure PublicListResponse where
  count : Nat
  profiles : List UserView
deriving DecidableEq

/-- The unauthenticated listing GET / of routes/profileRoutes.js: no filter,
newest-first sort, skip (page - 1) * limit, take limit, password projected
away; count is the whole collection. -/
def getAllProfiles (page limit : Nat) (store : List UserDoc) :
    PublicListResponse :=
  { count := store.length
    profiles := (((sortByCreatedAtDesc store).drop ((page - 1) * limit)).take
        limit).map projectWithoutPassword }

/-- GET /:id of routes/profileRoutes.js: key lookup with the password
projected away by .select("-password"); a missing document is a 404. -/
def getProfileById (pid : String) (store : List UserDoc) :
    Except (Nat × String) UserView :=
  match store.find? (fun d => d._id == pid) with
  | none => Except.error (404, "Profile not found")
  | some d => Except.ok (projectWithoutPassword d)

/-- The temporal filter of the admin listing, routes/adminRoutes.js GET
/users: week keeps documents created on or after local midnight seven days
ago, month those created on or after the first day of the current month, and
any other value (recent, the default) keeps everything. The two cutoffs are
computed from the server wall clock at request time and passed in here. -/
def adminUsersQuery (filterType : String) (oneWeekAgo firstDayOfMonth : Nat)
    (d : UserDoc) : Bool :=
  if filterType = "week" then oneWeekAgo ≤ d.createdAt
  else if filterType = "month" then firstDayOfMonth ≤ d.createdAt
  else true

/-- The JSON body of the admin listing GET /users. -/
structure AdminListResponse where
  users : List UserView
  totalUsers : Nat
  totalPages : Nat
  currentPage : Nat
  limit : Nat
  filter : String
deriving DecidableEq

/-- The admin listing GET /users of routes/adminRoutes.js: temporal filter,
newest-first sort, skip (page - 1) * limit, take limit. page and limit carry
their fallback defaults 1 and 9 already applied (parseInt(x) or-else the
default). No explicit projection appears in the code; the schema-level
select: false on password governs, modelled by projectWithoutPassword. -/
def adminListUsers (page limit : Nat) (filterType : String)
    (oneWeekAgo firstDayOfMonth : Nat) (store : List UserDoc) :
    AdminListResponse :=
  let skip := (page - 1) * limit
  let matching := store.filter (adminUsersQuery filterType oneWeekAgo firstDayOfMonth)
  let sorted := sortByCreatedAtDesc matching
  { users := ((sorted.drop skip).take limit).map projectWithoutPassword
    totalUsers := matching.length
    totalPages := jsCeil matching.length limit
    currentPage := page
    limit := limit
    filter := filterType }

/-- GET /users/:id of routes/adminRoutes.js: key lookup (the schema already
withholds the password hash), toObject, then delete userObject.password
before responding; a missing document is a 404. -/
def adminGetUser (uid : String) (store : List UserDoc) :
    Except (Nat × String) UserView :=
  match store.find? (fun d => d._id == uid) with
  | none => Except.error (404, "User not found")
  | some d => Except.ok (deletePassword (projectWithoutPassword d))

/-- The essential registration body fields of POST /register in
routes/authRoutes.js. A field holds none when it is absent or empty (falsy
in JavaScript); the remaining demographic fields do not steer control flow
and are omitted. -/
structure RegisterBody where
  email : Option String
  password : Option String
  mobileNumber : Option String
  name : Option String
  gender : Option String
  dateOfBirth : Option String
  city : Option String
  state : Option String
  country : Option String
deriving DecidableEq

/-- The essential-field check of POST /register (the big disjunction of
falsy tests that yields the 400 Missing essential registration fields). -/
def essentialsPresent (b : RegisterBody) : Bool :=
  b.email.isSome && b.password.isSome && b.mobileNumber.isSome &&
  b.name.isSome && b.gender.isSome && b.dateOfBirth.isSome &&
  b.city.isSome && b.state.isSome && b.country.isSome

/-- How newUser.save() can end: success, a Mongoose ValidationError (the one
error name the catch block recognises), or any other thrown error (for
example a duplicate-key race lost against a concurrent registration). -/
inductive SaveResult where
  | ok
  | validationError
  | otherError
deriving DecidableEq

/-- What the registration request leaves behind: the HTTP status, the
success flag of the JSON body, and whether fs.unlink was invoked on the
file this request had written (false also when no file was uploaded). -/
structure RegisterOutcome where
  status : Nat
  success : Bool
  fileDeleted : Bool
deriving DecidableEq

/-- The conflict lookup of POST /register:
findOne with an or-condition on the lowercased email and the mobile number. -/
def existingUserConflict (b : RegisterBody) (store : List UserDoc) : Bool :=
  store.any fun d =>
    b.email.map jsToLower == some d.email || b.mobileNumber == some d.mobileNumber

/-- The POST /register handler of routes/authRoutes.js after multer has run,
with the uploaded file (if any) already written to storage under the name
carried by the file argument. Control flow of the source: missing essential
fields give a 400 with no unlink; a uniqueness conflict unlinks the file (if
one was written) and gives a 400; then save() runs, and the catch block
unlinks the file only when the error is a ValidationError, every other save
error becoming a 500 with no unlink. -/
def registerHandler (b : RegisterBody) (file : Option String)
    (store : List UserDoc) (save : SaveResult) : RegisterOutcome :=
  if essentialsPresent b = false then
    { status := 400, success := false, fileDeleted := false }
  else if existingUserConflict b store then
    { status := 400, success := false, fileDeleted := file.isSome }
  else
    match save with
    | SaveResult.ok => { status := 201, success := true, fileDeleted := false }
    | SaveResult.validationError =>
        { status := 400, success := false, fileDeleted := file.isSome }
    | SaveResult.otherError =>
        { status := 500, success := false, fileDeleted := false }

/-- What the POST /me/upload-picture request leaves behind: the HTTP status
and whether the just-written file was unlinked before responding. -/
structure UploadPicOutcome where
  status : Nat
  fileDeleted : Bool
deriving DecidableEq

/-- The POST /me/upload-picture handler of routes/profileRoutes.js after
authMiddleware and the upload middleware have run: file is the stored
filename (none when no file arrived), castOk models whether a target
identifier parses as a valid ObjectId (a failure is the CastError branch),
adminHeader is the X-Admin-Request comparison, bodyUserId is req.body.userId.
No branch of the source ever unlinks the stored file, so every outcome
carries fileDeleted := false — including the 404 when the target user does
not exist and the 400 of the CastError branch. -/
def uploadPictureHandler (castOk : String → Bool)
    (reqUser : Option TokenPayload) (adminHeader : Bool)
    (bodyUserId : Option String) (file : Option String)
    (store : List UserDoc) : UploadPicOutcome :=
  match file with
  | none => { status := 400, fileDeleted := false }
  | some _ =>
    let target : Option String :=
      if adminHeader then
        match bodyUserId with
        | none => none
        | some s => if s = "" then none else some s
      else
        match reqUser with
        | none => none
        | some u => if u.userId = "" then none else some u.userId
    match target with
    | none =>
      if adminHeader then { status := 400, fileDeleted := false }
      else { status := 401, fileDeleted := false }
    | some tid =>
      if castOk tid then
        match store.find? (fun d => d._id == tid) with
        | none => { status := 404, fileDeleted := false }
        | some _ => { status := 200, fileDeleted := false }
      else { status := 400, fileDeleted := false }

/-- Outcome of a full route (gate plus handler): a successful JSON body, a
handled HTTP error response, or an exception thrown inside the handler and
forwarded by next(err) to the global 500 handler of server.js. -/
inductive RouteResult (α : Type) where
  | ok (value : α)
  | httpError (status : Nat) (message : String)
  | thrown (message : String)
deriving DecidableEq

/-- GET /search as routed: authMiddleware first, then the handler. When the
gate granted without attaching req.user (the admin-bypass path), the
handler evaluates req.user.userId on undefined, which throws a TypeError
that the catch block forwards to the global error handler. -/
def searchRoute (verify : String → Except VerifyError TokenPayload)
    (req : Request) (q : SearchQuery) (store : List UserDoc) :
    RouteResult SearchResponse :=
  match authMiddleware verify req with
  | GateOutcome.rejected s m => RouteResult.httpError s m
  | GateOutcome.granted none =>
      RouteResult.thrown "TypeError: Cannot read properties of undefined (reading userId)"
  | GateOutcome.granted (some u) => RouteResult.ok (searchHandler u.userId q store)

/-- A verifier that accepts every token, for concrete instantiations. -/
def verifyAll : String → Except VerifyError TokenPayload :=
  fun _ => Except.ok { userId := "someUser", role := "user" }

/-- A verifier that rejects every token as signature-invalid, for concrete
instantiations. -/
def verifyNone : String → Except VerifyError TokenPayload :=
  fun _ => Except.error VerifyError.badSignature

/-- A verifier holding one signature-invalid token and one expired token,
for the concrete instantiation of C6. -/
def verifyTwoTokens : String → Except VerifyError TokenPayload := fun t =>
  if t = "sigbroken" then Except.error VerifyError.badSignature
  else if t = "stale" then Except.error VerifyError.expired
  else Except.ok { userId := "someUser", role := "user" }

/-- A concrete stored document for instantiations. -/
def sampleDoc1 : UserDoc :=
  { _id := "u1", email := "a@x.com", mobileNumber := "9111111111",
    password := "hashA", gender := some "Male", age := some 30,
    location := some "Pune", religion := some "Hindu", createdAt := 100 }

/-- A second concrete stored document for instantiations. -/
def sampleDoc2 : UserDoc :=
  { _id := "u2", email := "b@x.com", mobileNumber := "9222222222",
    password := "hashB", gender := some "Female", age := some 28,
    location := some "Mumbai", religion := some "Hindu", createdAt := 200 }

/-- A concrete two-document store for instantiations. -/
def sampleStore : List UserDoc := [sampleDoc1, sampleDoc2]

/-- A concrete search query (no filters, second page of size one) for
instantiations. -/
def sampleQuery : SearchQuery :=
  { gender := none, minAge := none, maxAge := none, location := none,
    religion := none, page := 2, limit := 1 }

/-- Membership is preserved by the insertion step of the newest-first sort. -/
theorem mem_insertByCreatedAtDesc {d x : UserDoc} {l : List UserDoc} :
    x ∈ insertByCreatedAtDesc d l ↔ x = d ∨ x ∈ l := by
  induction l with
  | nil => simp [insertByCreatedAtDesc]
  | cons e rest ih =>
    unfold insertByCreatedAtDesc
    by_cases h : e.createdAt ≤ d.createdAt
    · simp [h, List.mem_cons]
    · simp [h, List.mem_cons, ih]
      tauto

/-- The newest-first sort keeps exactly the members of its input. -/
theorem mem_sortByCreatedAtDesc {x : UserDoc} {l : List UserDoc} :
    x ∈ sortByCreatedAtDesc l ↔ x ∈ l := by
  induction l with
  | nil => simp [sortByCreatedAtDesc]
  | cons d rest ih =>
    simp [sortByCreatedAtDesc, mem_insertByCreatedAtDesc, ih, List.mem_cons]

/-- The reported page count (a + b - 1) / b is the ceiling of a / b: it is
at most n exactly when n pages of size b hold all a records. -/
theorem jsCeil_le_iff (a b n : Nat) (hb : 1 ≤ b) : jsCeil a b ≤ n ↔ a ≤ n * b := by
  unfold jsCeil
  constructor
  · intro h
    by_contra hc
    push_neg at hc
    have hexp : (n + 1) * b = n * b + b := by ring
    have hm : (n + 1) * b ≤ a + b - 1 := by omega
    have := (Nat.le_div_iff_mul_le (by omega : 0 < b)).2 hm
    omega
  · intro h
    have hexp : (n + 1) * b = n * b + b := by ring
    have hlt : a + b - 1 < (n + 1) * b := by omega
    have := (Nat.div_lt_iff_lt_mul (by omega : 0 < b)).2 hlt
    omega

/-- Every view produced by the password-dropping projection has no password
field. -/
theorem password_none_of_mem_map {v : UserView} {l : List UserDoc}
    (h : v ∈ l.map projectWithoutPassword) : v.password = none := by
  obtain ⟨d, _, rfl⟩ := List.mem_map.1 h
  rfl

/-- A document reaching a paginated result page is a member of the filtered
collection the page was cut from. -/
theorem mem_of_mem_page {d : UserDoc} {l : List UserDoc} {s k : Nat}
    (h : d ∈ (((sortByCreatedAtDesc l).drop s).take k)) : d ∈ l := by
  have h1 := List.mem_of_mem_drop (List.mem_of_mem_take h)
  exact mem_sortByCreatedAtDesc.1 h1

/-- C3: a request whose X-Admin-Request header equals "true" is granted by
the Access Gate immediately with no identity attached, and the outcome is
independent of the Authorization header and of the token verifier, so it is
the same whether the request carries no token, a valid token, or an invalid
token. -/
theorem C3_admin_bypass_ignores_token
    (verify verify2 : String → Except VerifyError TokenPayload)
    (auth auth2 : Option String) :
    authMiddleware verify { xAdminRequest := some "true", authorization := auth } =
      GateOutcome.granted none
    ∧ authMiddleware verify { xAdminRequest := some "true", authorization := auth } =
      authMiddleware verify2 { xAdminRequest := some "true", authorization := auth2 } := by
  constructor <;> rfl

/-- C4: the header-only admin gate rejects every request whose
X-Admin-Request value is not exactly "true" with 403 Admin privileges
required, and its decision is a function of that header alone — the
Authorization header (hence any bearer token, valid or not) never changes
the outcome, and the gate consumes no token verifier at all. -/
theorem C4_static_admin_header_only (admin auth auth2 : Option String)
    (h : admin ≠ some "true") :
    staticAdminMiddleware { xAdminRequest := admin, authorization := auth } =
      AdminGateOutcome.rejected 403 "Admin privileges required"
    ∧ staticAdminMiddleware { xAdminRequest := admin, authorization := auth } =
      staticAdminMiddleware { xAdminRequest := admin, authorization := auth2 } := by
  constructor
  · simp [staticAdminMiddleware, h]
  · rfl

/-- Witness for C4 at a concrete input: no admin header and a request that
does carry a bearer token is still rejected with 403, identically to a
request with no token. -/
theorem C4_static_admin_header_only_witness :
    ((none : Option String) ≠ some "true")
    ∧ (staticAdminMiddleware
          { xAdminRequest := none, authorization := some "Bearer someValidUserToken" } =
        AdminGateOutcome.rejected 403 "Admin privileges required"
      ∧ staticAdminMiddleware
          { xAdminRequest := none, authorization := some "Bearer someValidUserToken" } =
        staticAdminMiddleware { xAdminRequest := none, authorization := none }) :=
  ⟨by decide,
    C4_static_admin_header_only none (some "Bearer someValidUserToken") none (by decide)⟩

/-- C5: a request presenting neither an extractable bearer token nor the
admin header with value "true" is rejected by the Access Gate with 401 and
the authentication-required message, and the outcome does not depend on the
token verifier — no verification is attempted. -/
theorem C5_no_credentials_rejected_401
    (verify verify2 : String → Except VerifyError TokenPayload) (req : Request)
    (hAdmin : req.xAdminRequest ≠ some "true")
    (hTok : extractToken req.authorization = none) :
    authMiddleware verify req =
      GateOutcome.rejected 401 "No token or admin header, authorization denied"
    ∧ authMiddleware verify req = authMiddleware verify2 req := by
  have h1 : authMiddleware verify req =
      GateOutcome.rejected 401 "No token or admin header, authorization denied" := by
    unfold authMiddleware
    rw [if_neg hAdmin, hTok]
  have h2 : authMiddleware verify2 req =
      GateOutcome.rejected 401 "No token or admin header, authorization denied" := by
    unfold authMiddleware
    rw [if_neg hAdmin, hTok]
  exact ⟨h1, h1.trans h2.symm⟩

/-- Witness for C5 at a concrete input: a request with neither header is
rejected 401, under an accepting verifier and a rejecting verifier alike. -/
theorem C5_no_credentials_rejected_401_witness :
    (({ xAdminRequest := none, authorization := none } : Request).xAdminRequest ≠
        some "true"
      ∧ extractToken ({ xAdminRequest := none, authorization := none } : Request).authorization =
        none)
    ∧ (authMiddleware verifyAll { xAdminRequest := none, authorization := none } =
        GateOutcome.rejected 401 "No token or admin header, authorization denied"
      ∧ authMiddleware verifyAll { xAdminRequest := none, authorization := none } =
        authMiddleware verifyNone { xAdminRequest := none, authorization := none }) :=
  ⟨⟨by decide, by decide⟩,
    C5_no_credentials_rejected_401 verifyAll verifyNone
      { xAdminRequest := none, authorization := none } (by decide) (by decide)⟩

/-- C6: take two token-bearing requests to the Access Gate, one whose token
verifies as signature-invalid and one whose token verifies as expired
(neither carrying the admin header). The two rejections are observationally
identical: both are exactly 401 with the message Token is not valid, so the
caller cannot tell the expired cause from the malformed cause. -/
theorem C6_invalid_and_expired_indistinguishable
    (verify : String → Except VerifyError TokenPayload) (r1 r2 : Request)
    (t1 t2 : String)
    (h1 : r1.xAdminRequest ≠ some "true") (h2 : r2.xAdminRequest ≠ some "true")
    (e1 : extractToken r1.authorization = some t1)
    (e2 : extractToken r2.authorization = some t2)
    (v1 : verify t1 = Except.error VerifyError.badSignature)
    (v2 : verify t2 = Except.error VerifyError.expired) :
    authMiddleware verify r1 = GateOutcome.rejected 401 "Token is not valid"
    ∧ authMiddleware verify r1 = authMiddleware verify r2 := by
  have a1 : authMiddleware verify r1 =
      GateOutcome.rejected 401 "Token is not valid" := by
    unfold authMiddleware
    rw [if_neg h1]
    simp only [e1, v1]
  have a2 : authMiddleware verify r2 =
      GateOutcome.rejected 401 "Token is not valid" := by
    unfold authMiddleware
    rw [if_neg h2]
    simp only [e2, v2]
  exact ⟨a1, a1.trans a2.symm⟩

/-- Witness for C6 at concrete inputs: under a verifier for which the token
sigbroken is signature-invalid and the token stale is expired, the two
rejections coincide at 401 Token is not valid. -/
theorem C6_invalid_and_expired_indistinguishable_witness :
    (({ xAdminRequest := none, authorization := some "Bearer sigbroken" } : Request).xAdminRequest ≠
        some "true"
      ∧ extractToken (some "Bearer sigbroken") = some "sigbroken"
      ∧ extractToken (some "Bearer stale") = some "stale"
      ∧ verifyTwoTokens "sigbroken" = Except.error VerifyError.badSignature
      ∧ verifyTwoTokens "stale" = Except.error VerifyError.expired)
    ∧ (authMiddleware verifyTwoTokens
          { xAdminRequest := none, authorization := some "Bearer sigbroken" } =
        GateOutcome.rejected 401 "Token is not valid"
      ∧ authMiddleware verifyTwoTokens
          { xAdminRequest := none, authorization := some "Bearer sigbroken" } =
        authMiddleware verifyTwoTokens
          { xAdminRequest := none, authorization := some "Bearer stale" }) :=
  ⟨⟨by decide, by decide, by decide, by rfl, by rfl⟩,
    C6_invalid_and_expired_indistinguishable verifyTwoTokens
      { xAdminRequest := none, authorization := some "Bearer sigbroken" }
      { xAdminRequest := none, authorization := some "Bearer stale" }
      "sigbroken" "stale" (by decide) (by decide) (by decide) (by decide)
      (by rfl) (by rfl)⟩

/-- C10: when the Access Gate admits a request through the admin-bypass
header it attaches no identity context (the granted outcome carries none,
while the bearer-token path is the only one attaching a decoded payload),
and the authenticated search handler, which reads the caller identifier
from that context for its self-exclusion filter, then dereferences an
absent identity: the routed request ends in a thrown TypeError instead of a
result. -/
theorem C10_admin_bypass_has_no_identity
    (verify : String → Except VerifyError TokenPayload) (auth : Option String)
    (q : SearchQuery) (store : List UserDoc) :
    authMiddleware verify { xAdminRequest := some "true", authorization := auth } =
      GateOutcome.granted none
    ∧ searchRoute verify { xAdminRequest := some "true", authorization := auth } q store =
      RouteResult.thrown "TypeError: Cannot read properties of undefined (reading userId)" := by
  constructor <;> rfl

/-- C2 (amended): the two upload pipelines use different admission
disciplines. The profile-routes pipeline (middleware/upload.js) accepts a
file exactly when its filename extension is on the case-insensitive image
allow-list, rejects every other file with the content-type-rejected message,
and a rejected file is never handed to storage; the registration pipeline
(routes/authRoutes.js) instead accepts exactly when the declared MIME type
starts with image/, irrespective of the filename extension. -/
theorem C2_upload_admission_disciplines (f : FileMeta) :
    (Upload.fileFilter f = FilterDecision.accept ↔ extMatches f.originalname = true)
    ∧ (extMatches f.originalname = false →
        Upload.fileFilter f = FilterDecision.reject "Only image files are allowed!")
    ∧ (runFileFilter Upload.fileFilter f = none ↔ extMatches f.originalname = false)
    ∧ (AuthRoutes.fileFilter f = FilterDecision.accept ↔ mimetypeIsImage f.mimetype = true)
    ∧ (mimetypeIsImage f.mimetype = false →
        AuthRoutes.fileFilter f =
          FilterDecision.reject "Not an image! Please upload only images.")
    ∧ (runFileFilter AuthRoutes.fileFilter f = none ↔ mimetypeIsImage f.mimetype = false) := by
  unfold runFileFilter Upload.fileFilter AuthRoutes.fileFilter
  cases hx : extMatches f.originalname <;> cases hm : mimetypeIsImage f.mimetype <;>
    simp [hx, hm]

/-- C2 counterexample: a file named notes.txt whose declared MIME type is
image/png. Its filename extension is not on the image allow-list, yet the
registration pipeline accepts it and hands it to storage — refuting the
claim that every incoming upload is accepted if and only if its filename
extension matches the allow-list. -/
theorem C2_registration_accepts_txt_named_file :
    AuthRoutes.fileFilter
        { fieldname := "profileImage", originalname := "notes.txt",
          mimetype := "image/png" } = FilterDecision.accept
    ∧ runFileFilter AuthRoutes.fileFilter
        { fieldname := "profileImage", originalname := "notes.txt",
          mimetype := "image/png" } =
      some ({ fieldname := "profileImage", originalname := "notes.txt",
              mimetype := "image/png" } : FileMeta)
    ∧ extMatches "notes.txt" = false := by
  refine ⟨by rfl, by rfl, by decide⟩

/-- C7: for every authenticated search — any caller, any combination of the
gender, age-range, location and religion filters, any page and limit, any
store contents — the result list never contains the record whose identifier
equals the caller's own identifier: the base filter excludes it before
pagination. -/
theorem C7_search_never_returns_caller (callerId : String) (q : SearchQuery)
    (store : List UserDoc) :
    ((searchHandler callerId q store).results.all fun v => v._id != callerId) = true := by
  rw [List.all_eq_true]
  intro v hv
  obtain ⟨d, hd, rfl⟩ :=
    List.mem_map.1
      (show v ∈ (((sortByCreatedAtDesc (store.filter (matchesSearch callerId q))).drop
          ((q.page - 1) * q.limit)).take q.limit).map projectWithoutPassword from hv)
  have hmem : d ∈ store.filter (matchesSearch callerId q) := mem_of_mem_page hd
  have hmatch : matchesSearch callerId q d = true := (List.mem_filter.1 hmem).2
  have hne : (!(d._id == callerId)) = true := by
    unfold matchesSearch at hmatch
    simp only [Bool.and_eq_true] at hmatch
    exact hmatch.1.1.1.1.1
  simpa [projectWithoutPassword] using hne

/-- C9: no read operation ever serialises the password hash. For every
store, every caller, every filter and pagination choice and every
identifier, each record of the search results, the public listing, the
profile-by-id response, the admin user listing and the admin user-details
response carries no password field: the explicit -password projections and
the schema-level select: false default both strip it. -/
theorem C9_no_password_in_read_payloads (callerId pid uid filterType : String)
    (q : SearchQuery) (page limit oneWeekAgo firstDayOfMonth : Nat)
    (store : List UserDoc) :
    ((searchHandler callerId q store).results.all fun v => v.password.isNone) = true
    ∧ ((getAllProfiles page limit store).profiles.all fun v => v.password.isNone) = true
    ∧ ((getProfileById pid store).toOption.all fun v => v.password.isNone) = true
    ∧ ((adminListUsers page limit filterType oneWeekAgo firstDayOfMonth store).users.all
        fun v => v.password.isNone) = true
    ∧ ((adminGetUser uid store).toOption.all fun v => v.password.isNone) = true := by
  refine ⟨?_, ?_, ?_, ?_, ?_⟩
  · rw [List.all_eq_true]
    intro v hv
    have h := password_none_of_mem_map
      (l := ((sortByCreatedAtDesc (store.filter (matchesSearch callerId q))).drop
        ((q.page - 1) * q.limit)).take q.limit) hv
    simp [h]
  · rw [List.all_eq_true]
    intro v hv
    have h := password_none_of_mem_map
      (l := ((sortByCreatedAtDesc store).drop ((page - 1) * limit)).take limit) hv
    simp [h]
  · unfold getProfileById
    cases hfind : store.find? (fun d => d._id == pid) with
    | none => rfl
    | some d => rfl
  · rw [List.all_eq_true]
    intro v hv
    have h := password_none_of_mem_map
      (l := ((sortByCreatedAtDesc
        (store.filter (adminUsersQuery filterType oneWeekAgo firstDayOfMonth))).drop
        ((page - 1) * limit)).take limit) hv
    simp [h]
  · unfold adminGetUser
    cases hfind : store.find? (fun d => d._id == uid) with
    | none => rfl
    | some d => rfl

/-- Core pagination facts about one filter-sort-skip-take page cut, shared
by the search listing and the admin listing: at most limit records, the
record at page offset i is the record at absolute offset
(page - 1) * limit + i of the sorted matching set, and the ceiling division
reported as totalPages is exactly characterised as the least page count
covering the matching set. -/
theorem page_cut_spec (matching : List UserDoc) (page limit : Nat)
    (hl : 1 ≤ limit) :
    ((((sortByCreatedAtDesc matching).drop ((page - 1) * limit)).take limit).map
        projectWithoutPassword).length ≤ limit
    ∧ (∀ i, i < ((((sortByCreatedAtDesc matching).drop ((page - 1) * limit)).take
          limit).map projectWithoutPassword).length →
        ((((sortByCreatedAtDesc matching).drop ((page - 1) * limit)).take limit).map
            projectWithoutPassword)[i]? =
          ((sortByCreatedAtDesc matching)[(page - 1) * limit + i]?).map
            projectWithoutPassword)
    ∧ matching.length ≤ jsCeil matching.length limit * limit
    ∧ (∀ n, matching.length ≤ n * limit → jsCeil matching.length limit ≤ n) := by
  refine ⟨?_, ?_, ?_, ?_⟩
  · rw [List.length_map]
    exact List.length_take_le limit _
  · intro i hi
    rw [List.length_map] at hi
    have hi2 : i < limit := lt_of_lt_of_le hi (List.length_take_le limit _)
    rw [List.getElem?_map, List.getElem?_take, if_pos hi2, List.getElem?_drop]
  · exact (jsCeil_le_iff matching.length limit (jsCeil matching.length limit) hl).1
      (le_refl _)
  · intro n hn
    exact (jsCeil_le_iff matching.length limit n hl).2 hn

/-- C8: the pagination contract of the two paginated scans. For the search
listing (defaults page 1, limit 10 already applied) and the admin listing
(defaults page 1, limit 9 already applied), with a 1-based page and a
positive limit: the returned page skips exactly (page - 1) * limit records
of the newest-first-sorted matching set (the record at result offset i is
the record at absolute offset (page - 1) * limit + i), at most limit
records are returned, the reported total counts the records matching the
same filter ignoring pagination, and the reported totalPages is the
ceiling of total / limit, characterised as the least number of pages of
size limit covering the total. -/
theorem C8_pagination_contract (callerId : String) (q : SearchQuery)
    (store : List UserDoc) (apage alimit : Nat) (filterType : String)
    (oneWeekAgo firstDayOfMonth : Nat) (astore : List UserDoc)
    (_hp : 1 ≤ q.page) (hl : 1 ≤ q.limit) (_hap : 1 ≤ apage) (hal : 1 ≤ alimit) :
    ((searchHandler callerId q store).results.length ≤ q.limit
      ∧ (∀ i, i < (searchHandler callerId q store).results.length →
          (searchHandler callerId q store).results[i]? =
            ((sortByCreatedAtDesc (store.filter (matchesSearch callerId q)))[
                (q.page - 1) * q.limit + i]?).map projectWithoutPassword)
      ∧ (searchHandler callerId q store).total =
          (store.filter (matchesSearch callerId q)).length
      ∧ (searchHandler callerId q store).total ≤
          (searchHandler callerId q store).totalPages * q.limit
      ∧ (∀ n, (searchHandler callerId q store).total ≤ n * q.limit →
          (searchHandler callerId q store).totalPages ≤ n))
    ∧ ((adminListUsers apage alimit filterType oneWeekAgo firstDayOfMonth
          astore).users.length ≤ alimit
      ∧ (∀ i, i < (adminListUsers apage alimit filterType oneWeekAgo firstDayOfMonth
            astore).users.length →
          (adminListUsers apage alimit filterType oneWeekAgo firstDayOfMonth
              astore).users[i]? =
            ((sortByCreatedAtDesc (astore.filter
                (adminUsersQuery filterType oneWeekAgo firstDayOfMonth)))[
                (apage - 1) * alimit + i]?).map projectWithoutPassword)
      ∧ (adminListUsers apage alimit filterType oneWeekAgo firstDayOfMonth
            astore).totalUsers =
          (astore.filter (adminUsersQuery filterType oneWeekAgo firstDayOfMonth)).length
      ∧ (adminListUsers apage alimit filterType oneWeekAgo firstDayOfMonth
            astore).totalUsers ≤
          (adminListUsers apage alimit filterType oneWeekAgo firstDayOfMonth
            astore).totalPages * alimit
      ∧ (∀ n, (adminListUsers apage alimit filterType oneWeekAgo firstDayOfMonth
            astore).totalUsers ≤ n * alimit →
          (adminListUsers apage alimit filterType oneWeekAgo firstDayOfMonth
            astore).totalPages ≤ n)) := by
  constructor
  · have h := page_cut_spec (store.filter (matchesSearch callerId q)) q.page q.limit hl
    exact ⟨h.1, h.2.1, rfl, h.2.2.1, h.2.2.2⟩
  · have h := page_cut_spec
      (astore.filter (adminUsersQuery filterType oneWeekAgo firstDayOfMonth))
      apage alimit hal
    exact ⟨h.1, h.2.1, rfl, h.2.2.1, h.2.2.2⟩

/-- Witness for C8 at concrete inputs: a two-document store, page 2 of size
1 for the search variant, page 1 of size 9 for the admin variant; the page
is within the limit and the total is covered by totalPages pages. -/
theorem C8_pagination_contract_witness :
    (1 ≤ sampleQuery.page ∧ 1 ≤ sampleQuery.limit ∧ (1 : Nat) ≤ 1 ∧ (1 : Nat) ≤ 9)
    ∧ ((searchHandler "u1" sampleQuery sampleStore).results.length ≤ sampleQuery.limit
      ∧ (searchHandler "u1" sampleQuery sampleStore).total ≤
          (searchHandler "u1" sampleQuery sampleStore).totalPages * sampleQuery.limit
      ∧ (adminListUsers 1 9 "recent" 0 0 sampleStore).users.length ≤ 9) :=
  ⟨⟨by decide, by decide, by decide, by decide⟩,
    ⟨(C8_pagination_contract "u1" sampleQuery sampleStore 1 9 "recent" 0 0 sampleStore
        (by decide) (by decide) (by decide) (by decide)).1.1,
      (C8_pagination_contract "u1" sampleQuery sampleStore 1 9 "recent" 0 0 sampleStore
        (by decide) (by decide) (by decide) (by decide)).1.2.2.2.1,
      (C8_pagination_contract "u1" sampleQuery sampleStore 1 9 "recent" 0 0 sampleStore
        (by decide) (by decide) (by decide) (by decide)).2.1⟩⟩

/-- C1 evaluated at its failing inputs: the rollback invariant does not hold
on every error path that follows a successful file write. First, a standard
authenticated picture upload whose file was written but whose target user
is absent from the store ends in the 404 error response with the stored
file never unlinked. Second, a registration with a written file, all
essential fields present and no conflict, whose save() throws an error
other than a ValidationError, ends in the 500 error response with the
stored file never unlinked. (The conflict path and the ValidationError
path do unlink, so the cleanup is partial, not the hard invariant.) -/
theorem C1_rollback_gap_at_failing_inputs :
    (uploadPictureHandler (fun _ => true)
        (some { userId := "ghostUser", role := "user" }) false none
        (some "profileImage-1700000000000-123456789.png") sampleStore).status = 404
    ∧ (uploadPictureHandler (fun _ => true)
        (some { userId := "ghostUser", role := "user" }) false none
        (some "profileImage-1700000000000-123456789.png") sampleStore).fileDeleted = false
    ∧ (registerHandler
        { email := some "new@x.com", password := some "secret123",
          mobileNumber := some "9333333333", name := some "New User",
          gender := some "Male", dateOfBirth := some "1990-01-01",
          city := some "Pune", state := some "MH", country := some "India" }
        (some "profileImage-1700000000000-123456789.png") [] SaveResult.otherError).status = 500
    ∧ (registerHandler
        { email := some "new@x.com", password := some "secret123",
          mobileNumber := some "9333333333", name := some "New User",
          gender := some "Male", dateOfBirth := some "1990-01-01",
          city := some "Pune", state := some "MH", country := some "India" }
        (some "profileImage-1700000000000-123456789.png") [] SaveResult.otherError).fileDeleted =
      false := by
  refine ⟨by rfl, by rfl, by rfl, by rfl⟩
